import Mathlib

/-!
# Verification of `landsatxplore/earthexplorer.py`

A shallow embedding of the EarthExplorer portal client
(`src/landsatxplore/earthexplorer.py`) and proofs about it.

Modelling conventions:
* HTTP traffic is represented by an explicit trace of `NetEvent`s returned
  alongside each operation's result, so "no POST was issued" or "the resolver
  was called exactly once" are statements about that trace.
* Python exceptions are values of `PyExn` (`Except PyExn _` results);
  `EarthExplorerError` is the library's exception class, the others are the
  Python builtins the code can raise.
* The external collaborators (`guess_dataset`, `is_product_id`,
  `API.get_scene_id`) are parameters of the embedding, as the spec treats
  them as black boxes.
* Strings are Lean `String`s; byte chunks from `iter_content` are modelled
  as `String`s whose Python truthiness is non-emptiness.
-/

set_option autoImplicit false

/-- Python exception kinds raised by the embedded code: the library's
`EarthExplorerError` plus the builtins (`IndexError` from `[0]` on an empty
list, `KeyError` from a dict lookup, `TypeError`/`ValueError` from `int()`). -/
inductive PyExn where
  | indexError
  | keyError (key : String)
  | typeError
  | valueError
  | earthExplorerError (msg : String)
deriving DecidableEq, Repr

/-- Network/collaborator events, in the order the code performs them. -/
inductive NetEvent where
  | getLoginPage
  | postLogin (username password csrf ncform : String)
  | resolveCall (productId dataset : String)
  | httpGet (url : String)
deriving DecidableEq, Repr

/-- A cookie jar: association list of cookie name/value pairs
(`requests` session cookies; lookup returns the first match). -/
def CookieJar := List (String × String)

/-- Model of `session.cookies.get(name)`: value of the first cookie with that name,
`none` when absent. -/
def cookieGet (jar : CookieJar) (name : String) : Option String :=
  (jar.find? (fun p => p.1 == name)).map Prod.snd

/-- Model of `EarthExplorer.logged_in`:
`bool(self.session.cookies.get("EROS_SSO_production_secure"))` —
`None` and the empty string are falsy, any other string is truthy. -/
def logged_in (jar : CookieJar) : Bool :=
  match cookieGet jar "EROS_SSO_production_secure" with
  | none => false
  | some v => !(v == "")

/-! ## Token extraction (`_get_tokens`)

The source runs `re.findall(r'name="csrf" value="(.+?)"', body)[0]` (and the
same for `__ncforminfo`).  The pattern is a literal followed by a lazy
non-empty capture `(.+?)` and a closing quote: a match at a position requires
the literal there, then captures up to the first following `"` at distance at
least one character, with `.` not matching a newline.  `findall` scans left to
right and resumes after each match. -/

/-- Split `l` at the first `'"'`: `some (before, after)` with `'"'` consumed,
failing (`none`) if a newline or the end of input comes first
(`.` does not match a newline). -/
def upToQuote : List Char → Option (List Char × List Char)
  | [] => none
  | c :: rest =>
    if c = '"' then some ([], rest)
    else if c = '\n' then none
    else match upToQuote rest with
      | some (cap, r) => some (c :: cap, r)
      | none => none

/-- Match `(.+?)"` at the head of `l`: one mandatory character (not a newline)
then the shortest run up to a closing `'"'`.  Returns the capture and the
remainder after the closing quote. -/
def scanValue : List Char → Option (List Char × List Char)
  | [] => none
  | c :: rest =>
    if c = '\n' then none
    else match upToQuote rest with
      | some (cap, r) => some (c :: cap, r)
      | none => none

/-- Model of `re.findall` for a pattern `<lit>(.+?)"` with literal part `lit`,
with explicit fuel (one unit per scan position; `body.length` suffices,
see `findallF_fuel_irrelevant`). -/
def findallF (lit : List Char) : Nat → List Char → List (List Char)
  | 0, _ => []
  | _, [] => []
  | fuel + 1, c :: rest =>
    if lit.isPrefixOf (c :: rest) then
      match scanValue ((c :: rest).drop lit.length) with
      | some (cap, r) => cap :: findallF lit fuel r
      | none => findallF lit fuel rest
    else findallF lit fuel rest

/-- Model of `re.findall(lit ++ '(.+?)"', body)`. -/
def findall (lit body : List Char) : List (List Char) :=
  findallF lit body.length body

/-- Literal part of the pattern `name="csrf" value="(.+?)"`. -/
def csrfLit : List Char := "name=\"csrf\" value=\"".data

/-- Literal part of the pattern `name="__ncforminfo" value="(.+?)"`. -/
def ncformLit : List Char := "name=\"__ncforminfo\" value=\"".data

/-- Model of `_get_tokens(body)`:
```
csrf = re.findall(r'name="csrf" value="(.+?)"', body)[0]
ncform = re.findall(r'name="__ncforminfo" value="(.+?)"', body)[0]
if not csrf: raise EarthExplorerError("EE: login failed (csrf token not found).")
if not ncform: raise EarthExplorerError("EE: login failed (ncforminfo not found).")
return csrf, ncform
```
`[0]` on an empty findall result raises `IndexError`. -/
def get_tokens (body : String) : Except PyExn (String × String) :=
  match findall csrfLit body.data with
  | [] => .error .indexError
  | csrf :: _ =>
    match findall ncformLit body.data with
    | [] => .error .indexError
    | ncform :: _ =>
      if csrf = [] then
        .error (.earthExplorerError "EE: login failed (csrf token not found).")
      else if ncform = [] then
        .error (.earthExplorerError "EE: login failed (ncforminfo not found).")
      else .ok (⟨csrf⟩, ⟨ncform⟩)

/-- Model of `EarthExplorer.login(username, password)`.  The GET of the login page and
the cookie state produced by the POST are inputs (`pageBody` is the body the
portal served; `jarAfterPost` is the session's cookie jar after the POST).
Returns the trace of requests issued and the result:
```
rsp = self.session.get(EE_LOGIN_URL)
csrf, ncform = _get_tokens(rsp.text)
payload = {username, password, csrf, __ncforminfo}
rsp = self.session.post(EE_LOGIN_URL, data=payload, allow_redirects=True)
if not self.logged_in(): raise EarthExplorerError("EE: login failed.")
``` -/
def login (username password : String) (pageBody : String)
    (jarAfterPost : CookieJar) : List NetEvent × Except PyExn Unit :=
  match get_tokens pageBody with
  | .error e => ([.getLoginPage], .error e)
  | .ok (csrf, ncform) =>
    let evs := [NetEvent.getLoginPage,
                NetEvent.postLogin username password csrf ncform]
    if logged_in jarAfterPost then (evs, .ok ())
    else (evs, .error (.earthExplorerError "EE: login failed."))

/-! ## Download machinery (`_download` and `download`) -/

/-- Python `s.split("=")` (always a non-empty list). -/
def splitEq : List Char → List (List Char)
  | [] => [[]]
  | c :: rest =>
    if c = '=' then [] :: splitEq rest
    else match splitEq rest with
      | [] => [[c]]
      | p :: ps => (c :: p) :: ps

/-- The suffix of `l` after its final `'='` (all of `l` when `'='` does not
occur): the spec's description of the extracted filename. -/
def afterLastEq (l : List Char) : List Char :=
  (l.reverse.takeWhile (fun c => !(c = '='))).reverse

/-- Python `s.split("=")[-1]` on strings. -/
def pySplitEqLast (s : String) : String :=
  ⟨(splitEq s.data).getLastD []⟩

/-- Python `s.replace(chr(34), "")`: all double quotes removed. -/
def stripQuotes (s : String) : String :=
  ⟨s.data.filter (fun c => !(c = '"'))⟩

/-- POSIX `os.path.join(a, b)` for the two-argument case: `b` when `b` is
absolute, else `a` and `b` joined with exactly one separator. -/
def osPathJoin (a b : String) : String :=
  if b.data.head? = some '/' then b
  else if a = "" then b
  else if a.data.getLast? = some '/' then a ++ b
  else a ++ "/" ++ b

/-- Accumulate the decimal value of a digit run; `none` at the first
non-digit. -/
def decDigits? : List Char → Nat → Option Nat
  | [], acc => some acc
  | c :: rest, acc =>
    if c.isDigit then decDigits? rest (acc * 10 + (c.toNat - 48)) else none

/-- Python `int(s)` restricted to the non-negative decimal strings HTTP
`Content-Length` headers carry (other inputs are not exercised by any claim;
parse failure models `ValueError`). -/
def pyInt? (s : String) : Option Nat :=
  match s.data with
  | [] => none
  | l => decDigits? l 0

/-- An HTTP response to the streamed GET: the two headers `_download` reads
(`None` when absent) and the chunk sequence `iter_content(chunk_size)`
yields.  A chunk's Python truthiness is non-emptiness. -/
structure HttpResponse where
  contentLength : Option String
  contentDisposition : Option String
  chunks : List String
deriving DecidableEq, Repr

/-- Outcome of the streamed GET: either a `requests.exceptions.Timeout`
(raised by the request or while streaming; the `except` clause wraps the
whole block) or a response. -/
inductive GetResult where
  | timeout
  | resp (r : HttpResponse)
deriving DecidableEq, Repr

/-- What a successful `_download` produced: the returned path, the chunks
written to the file in order, and the final `tqdm` progress counter. -/
structure DownloadResult where
  path : String
  written : List String
  progress : Nat
deriving DecidableEq, Repr

/-- Model of `EarthExplorer._download(url, output_dir, timeout, chunk_size=1024)`:
```
try:
  with self.session.get(url, stream=True, allow_redirects=True, timeout=timeout) as r:
    file_size = int(r.headers.get("Content-Length"))
    with tqdm(total=file_size, ...) as pbar:
      local_filename = r.headers["Content-Disposition"].split("=")[-1]
      local_filename = local_filename.replace(chr(34), "")
      local_filename = os.path.join(output_dir, local_filename)
      with open(local_filename, "wb") as f:
        for chunk in r.iter_content(chunk_size=chunk_size):
          if chunk:
            f.write(chunk)
            pbar.update(chunk_size)
except requests.exceptions.Timeout:
  raise EarthExplorerError("Connection timeout after {timeout} seconds.")
return local_filename
```
`int(None)` raises `TypeError`, a non-numeric `Content-Length` raises
`ValueError`, a missing `Content-Disposition` raises `KeyError`. -/
def download_file (url output_dir : String) (timeout chunk_size : Nat)
    (net : GetResult) : List NetEvent × Except PyExn DownloadResult :=
  ([.httpGet url],
   match net with
   | .timeout =>
     .error (.earthExplorerError
       ("Connection timeout after " ++ toString timeout ++ " seconds."))
   | .resp r =>
     match r.contentLength with
     | none => .error .typeError
     | some cl =>
       match pyInt? cl with
       | none => .error .valueError
       | some _ =>
         match r.contentDisposition with
         | none => .error (.keyError "Content-Disposition")
         | some cd =>
           let kept := r.chunks.filter (fun c => !(c = ""))
           .ok ⟨osPathJoin output_dir (stripQuotes (pySplitEqLast cd)),
                kept, kept.length * chunk_size⟩)

/-- The module-level `DATA_PRODUCTS` dict: GeoTIFF data product id per
dataset. -/
def DATA_PRODUCTS : List (String × String) :=
  [("landsat_tm_c1", "5e83d08fd9932768"),
   ("landsat_etm_c1", "5e83a507d6aaa3db"),
   ("landsat_8_c1", "5e83d0b84df8d8c2"),
   ("landsat_tm_c2_l1", "5e83d0a0f94d7d8d"),
   ("landsat_etm_c2_l1", "5e83d0d08fec8a66"),
   ("landsat_ot_c2_l1", "5e81f14f92acf9ef"),
   ("landsat_tm_c2_l2", "5e83d11933473426"),
   ("landsat_etm_c2_l2", "5e83d12aed0efa58"),
   ("landsat_ot_c2_l2", "5e83d14fec7cae84"),
   ("sentinel_2a", "5e83a42c6eba8084")]

/-- Model of `EE_DOWNLOAD_URL.format(data_product_id=..., scene_id=...)`; the template
is `https://earthexplorer.usgs.gov/download/{...}/{...}/EE/`. -/
def eeDownloadUrl (data_product_id scene_id : String) : String :=
  "https://earthexplorer.usgs.gov/download/" ++ data_product_id ++ "/"
    ++ scene_id ++ "/EE/"

/-- The dataset actually used by `download`:
`if not dataset: dataset = guess_dataset(scene_id)` — Python treats both
`None` and `""` as falsy. -/
def resolveDataset (guess_dataset : String → String) (scene_id : String)
    (dataset : Option String) : String :=
  match dataset with
  | none => guess_dataset scene_id
  | some s => if s = "" then guess_dataset scene_id else s

/-- Model of `EarthExplorer.download(scene_id, output_dir, dataset=None, timeout=300)`.
The collaborators `is_product_id`, `guess_dataset` and
`API.get_scene_id` are black-box parameters; `net` is the portal's answer to
the streamed GET:
```
os.makedirs(output_dir, exist_ok=True)
if not dataset: dataset = guess_dataset(scene_id)
if is_product_id(scene_id): scene_id = self.api.get_scene_id(scene_id, dataset)
url = EE_DOWNLOAD_URL.format(data_product_id=DATA_PRODUCTS[dataset], scene_id=scene_id)
filename = self._download(url, output_dir, timeout=timeout)
return filename
```
A dataset missing from `DATA_PRODUCTS` raises `KeyError` at the dict
subscript. -/
def download (is_product_id : String → Bool) (guess_dataset : String → String)
    (get_scene_id : String → String → String)
    (scene_id output_dir : String) (dataset : Option String) (timeout : Nat)
    (net : GetResult) : List NetEvent × Except PyExn String :=
  let ds := resolveDataset guess_dataset scene_id dataset
  let (resEvents, sid) :=
    if is_product_id scene_id
    then ([NetEvent.resolveCall scene_id ds], get_scene_id scene_id ds)
    else ([], scene_id)
  match DATA_PRODUCTS.lookup ds with
  | none => (resEvents, .error (.keyError ds))
  | some code =>
    let dl := download_file (eeDownloadUrl code sid) output_dir timeout 1024 net
    (resEvents ++ dl.1, dl.2.map (fun res => res.path))

/-- Is this trace event a call to the `resolveSceneId` collaborator? -/
def isResolveCall : NetEvent → Bool
  | .resolveCall _ _ => true
  | _ => false

/-- Is this trace event an HTTP GET of a download URL? -/
def isHttpGet : NetEvent → Bool
  | .httpGet _ => true
  | _ => false

theorem upToQuote_length {l cap r : List Char}
    (h : upToQuote l = some (cap, r)) : r.length < l.length := by
  induction l generalizing cap r with
  | nil => simp [upToQuote] at h
  | cons c rest ih =>
    rw [upToQuote] at h
    split at h
    · simp only [Option.some.injEq, Prod.mk.injEq] at h
      obtain ⟨-, h2⟩ := h
      subst h2
      simp
    · split at h
      · exact absurd h (by simp)
      · cases hrec : upToQuote rest with
        | none => rw [hrec] at h; exact absurd h (by simp)
        | some p =>
          obtain ⟨cap', r'⟩ := p
          rw [hrec] at h
          simp only [Option.some.injEq, Prod.mk.injEq] at h
          obtain ⟨-, h2⟩ := h
          subst h2
          exact Nat.lt_trans (ih hrec) (by simp)

theorem scanValue_length {l cap r : List Char}
    (h : scanValue l = some (cap, r)) : r.length < l.length := by
  cases l with
  | nil => simp [scanValue] at h
  | cons c rest =>
    rw [scanValue] at h
    split at h
    · exact absurd h (by simp)
    · cases hrec : upToQuote rest with
      | none => rw [hrec] at h; exact absurd h (by simp)
      | some p =>
        obtain ⟨cap', r'⟩ := p
        rw [hrec] at h
        simp only [Option.some.injEq, Prod.mk.injEq] at h
        obtain ⟨-, h2⟩ := h
        subst h2
        exact Nat.lt_trans (upToQuote_length hrec) (by simp)

theorem scanValue_ne_nil {l cap r : List Char}
    (h : scanValue l = some (cap, r)) : cap ≠ [] := by
  cases l with
  | nil => simp [scanValue] at h
  | cons c rest =>
    rw [scanValue] at h
    split at h
    · exact absurd h (by simp)
    · cases hrec : upToQuote rest with
      | none => rw [hrec] at h; exact absurd h (by simp)
      | some p =>
        obtain ⟨cap', r'⟩ := p
        rw [hrec] at h
        simp only [Option.some.injEq, Prod.mk.injEq] at h
        obtain ⟨h1, -⟩ := h
        subst h1
        simp

/-- Every capture produced by the lazy-group pattern is non-empty:
`(.+?)` matches at least one character. -/
theorem findallF_mem_ne_nil (lit : List Char) (fuel : Nat) (body : List Char)
    {cap : List Char} (h : cap ∈ findallF lit fuel body) : cap ≠ [] := by
  induction fuel generalizing body with
  | zero => simp [findallF] at h
  | succ fuel ih =>
    cases body with
    | nil => simp [findallF] at h
    | cons c rest =>
      unfold findallF at h
      split at h
      · revert h
        cases hsv : scanValue ((c :: rest).drop lit.length) with
        | none => intro h; exact ih rest h
        | some p =>
          intro h
          obtain ⟨cap', r'⟩ := p
          rcases List.mem_cons.mp h with h1 | h2
          · subst h1; exact scanValue_ne_nil hsv
          · exact ih r' h2
      · exact ih rest h

theorem findall_mem_ne_nil (lit body : List Char) {cap : List Char}
    (h : cap ∈ findall lit body) : cap ≠ [] :=
  findallF_mem_ne_nil lit body.length body h

/-- With fuel at least `body.length` the fuel never runs out: any two
sufficient fuels give the same scan, so `findall` (which uses `body.length`)
computes the true, fuel-free `re.findall`. -/
theorem findallF_fuel_irrelevant (lit : List Char) :
    ∀ (fuel fuel' : Nat) (body : List Char), body.length ≤ fuel →
      body.length ≤ fuel' → findallF lit fuel body = findallF lit fuel' body := by
  intro fuel
  induction fuel with
  | zero =>
    intro fuel' body h h'
    have : body = [] := List.length_eq_zero.mp (Nat.le_zero.mp h)
    subst this
    cases fuel' <;> simp [findallF]
  | succ fuel ih =>
    intro fuel' body h h'
    cases body with
    | nil => cases fuel' <;> simp [findallF]
    | cons c rest =>
      have hrest : rest.length ≤ fuel := by
        have := h; simp only [List.length_cons] at this; omega
      cases fuel' with
      | zero => exact absurd h' (by simp)
      | succ f' =>
        have hrest' : rest.length ≤ f' := by
          have := h'; simp only [List.length_cons] at this; omega
        show findallF lit (fuel + 1) (c :: rest) = findallF lit (f' + 1) (c :: rest)
        unfold findallF
        split
        · cases hsv : scanValue ((c :: rest).drop lit.length) with
          | none => exact ih f' rest hrest hrest'
          | some p =>
            obtain ⟨cap, r⟩ := p
            have hr : r.length ≤ rest.length := by
              have h1 : r.length < ((c :: rest).drop lit.length).length :=
                scanValue_length hsv
              have h2 : ((c :: rest).drop lit.length).length ≤ rest.length + 1 := by
                simp [List.length_drop]
              omega
            exact congrArg (cap :: ·)
              (ih f' r (Nat.le_trans hr hrest) (Nat.le_trans hr hrest'))
        · exact ih f' rest hrest hrest'

theorem findall_eq_of_le (lit : List Char) (fuel : Nat) (body : List Char)
    (h : body.length ≤ fuel) : findallF lit fuel body = findall lit body := by
  rw [findall]
  exact findallF_fuel_irrelevant lit fuel body.length body h (Nat.le_refl _)

/-- C2: `logged_in` is true iff the cookie named `EROS_SSO_production_secure`
is present with a non-empty value, and its result depends only on the lookup
of that one cookie name (hence is independent of any other cookies); it is a
pure function of the jar, performing no I/O. -/
theorem logged_in_iff_sso_cookie (jar jar' : CookieJar) :
    (logged_in jar = true ↔
      ∃ v, cookieGet jar "EROS_SSO_production_secure" = some v ∧ v ≠ "") ∧
    (cookieGet jar "EROS_SSO_production_secure" =
        cookieGet jar' "EROS_SSO_production_secure" →
      logged_in jar = logged_in jar') := by
  constructor
  · unfold logged_in
    cases h : cookieGet jar "EROS_SSO_production_secure" with
    | none => simp
    | some v =>
      simp only [Bool.not_eq_true']
      constructor
      · intro hv
        exact ⟨v, rfl, by simpa using hv⟩
      · rintro ⟨w, hw, hne⟩
        cases hw
        simpa using hne
  · intro h
    unfold logged_in
    rw [h]

/-- C2 witness: a jar holding a non-empty SSO cookie (among unrelated
cookies) is logged in. -/
theorem logged_in_iff_sso_cookie_witness :
    logged_in [("other", "x"), ("EROS_SSO_production_secure", "tok")] = true :=
  (logged_in_iff_sso_cookie
      [("other", "x"), ("EROS_SSO_production_secure", "tok")] []).1.mpr
    ⟨"tok", by decide, by decide⟩

/-! ## Claims about token extraction and login -/

/-- C9: the empty-token guards in `_get_tokens` are dead code.  Whenever the
`[0]` indexing succeeds, the captured token is non-empty (the lazy group
`(.+?)` matches at least one character), so `get_tokens` either fails at the
indexing step with `IndexError` or returns two non-empty tokens; the two
`EarthExplorerError` branches naming a missing token are unreachable. -/
theorem get_tokens_guards_unreachable (body : String) :
    get_tokens body = .error .indexError ∨
    ∃ csrf ncform, get_tokens body = .ok (csrf, ncform) ∧
      csrf ≠ "" ∧ ncform ≠ "" := by
  cases h1 : findall csrfLit body.data with
  | nil => left; simp [get_tokens, h1]
  | cons c cs =>
    cases h2 : findall ncformLit body.data with
    | nil => left; simp [get_tokens, h1, h2]
    | cons n ns =>
      have hc : c ≠ [] := findall_mem_ne_nil csrfLit body.data
        (by rw [h1]; exact List.mem_cons_self c cs)
      have hn : n ≠ [] := findall_mem_ne_nil ncformLit body.data
        (by rw [h2]; exact List.mem_cons_self n ns)
      right
      exact ⟨⟨c⟩, ⟨n⟩, by simp [get_tokens, h1, h2, hc, hn],
        fun h => hc (congrArg String.data h),
        fun h => hn (congrArg String.data h)⟩

/-- C1 (code bug): on a login-page body in which the `csrf` pattern finds
zero matches, `login` does fail before the POST is issued (the trace holds
only the GET of the login page), but it fails with a bare `IndexError`
escaping from `re.findall(...)[0]` — not with the `EarthExplorerError`
naming the missing token that the spec describes; those named-token branches
are unreachable dead code. -/
theorem login_missing_csrf_raises_index_error :
    login "user" "pass" "<html><form>no tokens here</form></html>" [] =
      ([NetEvent.getLoginPage], .error .indexError) ∧
    ∀ msg, PyExn.indexError ≠ PyExn.earthExplorerError msg := by
  constructor
  · rfl
  · intro msg h
    exact PyExn.noConfusion h

/-! ## Claims about the streamed download -/

/-- C6: a `requests.exceptions.Timeout` during the streamed GET surfaces as
exactly one `EarthExplorerError` (the library's download-error kind) whose
message embeds the configured timeout value followed by `" seconds."`; no
other error kind is raised for that condition, and the trace holds a single
GET — nothing is retried. -/
theorem timeout_single_download_error
    (is_product_id : String → Bool) (guess_dataset : String → String)
    (get_scene_id : String → String → String)
    (scene_id output_dir url : String) (dataset : Option String)
    (timeout chunk_size : Nat) (code : String)
    (h : DATA_PRODUCTS.lookup (resolveDataset guess_dataset scene_id dataset)
      = some code) :
    download_file url output_dir timeout chunk_size .timeout =
      ([NetEvent.httpGet url],
       .error (.earthExplorerError
         ("Connection timeout after " ++ toString timeout ++ " seconds."))) ∧
    (download is_product_id guess_dataset get_scene_id scene_id output_dir
        dataset timeout .timeout).2 =
      .error (.earthExplorerError
        ("Connection timeout after " ++ toString timeout ++ " seconds.")) ∧
    ((download is_product_id guess_dataset get_scene_id scene_id output_dir
        dataset timeout .timeout).1.filter isHttpGet).length = 1 := by
  refine ⟨rfl, ?_, ?_⟩ <;>
    cases hipi : is_product_id scene_id <;>
      simp [download, h, hipi, download_file, isHttpGet, Except.map]

/-- C6 witness: a concrete timeout with dataset `landsat_8_c1`. -/
theorem timeout_single_download_error_witness :
    DATA_PRODUCTS.lookup (resolveDataset (fun _ => "x") "LC8" (some "landsat_8_c1"))
      = some "5e83d0b84df8d8c2" ∧
    download_file "u" "/out" 300 1024 .timeout =
      ([NetEvent.httpGet "u"],
       .error (.earthExplorerError
         ("Connection timeout after " ++ toString 300 ++ " seconds."))) ∧
    (download (fun _ => false) (fun _ => "x") (fun _ _ => "y") "LC8" "/out"
        (some "landsat_8_c1") 300 .timeout).2 =
      .error (.earthExplorerError
        ("Connection timeout after " ++ toString 300 ++ " seconds.")) ∧
    ((download (fun _ => false) (fun _ => "x") (fun _ _ => "y") "LC8" "/out"
        (some "landsat_8_c1") 300 .timeout).1.filter isHttpGet).length = 1 :=
  ⟨by decide,
   timeout_single_download_error (fun _ => false) (fun _ => "x") (fun _ _ => "y")
     "LC8" "/out" "u" (some "landsat_8_c1") 300 1024 "5e83d0b84df8d8c2" (by decide)⟩

/-- C8 counterexample: a streamed body delivered as two chunks, the second
empty.  Two chunks are received, but `if chunk:` skips the empty one, so the
progress counter ends at 1024, not 2 × 1024 as the claim's
"k chunks → k × chunk-size" would require. -/
theorem progress_not_per_received_chunk :
    (download_file "u" "/d" 300 1024
        (.resp ⟨some "10", some "x=f", ["a", ""]⟩)).2 =
      .ok ⟨"/d/f", ["a"], 1024⟩ ∧
    (["a", ""].length * 1024 = 2048) ∧ (1024 : Nat) ≠ 2048 := by
  refine ⟨rfl, rfl, by decide⟩

/-- C8 (amended): `_download` writes exactly the non-empty chunks, in order,
and advances the progress indicator by one chunk-size unit per NON-EMPTY
chunk received (the `if chunk:` guard skips empty chunks), so the final
counter is (number of non-empty chunks) × chunk-size regardless of each
chunk's actual size. -/
theorem progress_counts_nonempty_chunks
    (url output_dir cl cd : String) (n timeout chunk_size : Nat)
    (chunks : List String) (hcl : pyInt? cl = some n) :
    (download_file url output_dir timeout chunk_size
        (.resp ⟨some cl, some cd, chunks⟩)).2 =
      .ok ⟨osPathJoin output_dir (stripQuotes (pySplitEqLast cd)),
           chunks.filter (fun c => !(c = "")),
           (chunks.filter (fun c => !(c = ""))).length * chunk_size⟩ := by
  simp [download_file, hcl]

/-- C8 witness: four chunks of assorted sizes, one empty: three units of
progress. -/
theorem progress_counts_nonempty_chunks_witness :
    pyInt? "10" = some 10 ∧
    (download_file "u" "/d" 300 1024
        (.resp ⟨some "10", some "x=f", ["a", "bc", "", "defg"]⟩)).2 =
      .ok ⟨osPathJoin "/d" (stripQuotes (pySplitEqLast "x=f")),
           ["a", "bc", "", "defg"].filter (fun c => !(c = "")),
           (["a", "bc", "", "defg"].filter (fun c => !(c = ""))).length * 1024⟩ :=
  ⟨by decide,
   progress_counts_nonempty_chunks "u" "/d" "10" "x=f" 10 300 1024
     ["a", "bc", "", "defg"] (by decide)⟩

/-! ## The filename really is the suffix after the final equals sign

`split("=")[-1]` versus the spec's "substring after the final `=`". -/

theorem splitEq_ne_nil (l : List Char) : splitEq l ≠ [] := by
  cases l with
  | nil => simp [splitEq]
  | cons c rest =>
    rw [splitEq]
    split
    · simp
    · cases h : splitEq rest with
      | nil => simp
      | cons p ps => simp

theorem takeWhile_all {p : Char → Bool} {l : List Char}
    (h : ∀ x ∈ l, p x = true) : l.takeWhile p = l := by
  induction l with
  | nil => rfl
  | cons c rest ih =>
    rw [List.takeWhile_cons, h c (List.mem_cons_self c rest), if_pos rfl]
    exact congrArg (c :: ·) (ih fun x hx => h x (List.mem_cons_of_mem c hx))

theorem takeWhile_append_all {p : Char → Bool} {l1 l2 : List Char}
    (h : ∀ x ∈ l1, p x = true) :
    (l1 ++ l2).takeWhile p = l1 ++ l2.takeWhile p := by
  induction l1 with
  | nil => rfl
  | cons c rest ih =>
    rw [List.cons_append, List.takeWhile_cons,
      h c (List.mem_cons_self c rest), if_pos rfl, List.cons_append]
    exact congrArg (c :: ·) (ih fun x hx => h x (List.mem_cons_of_mem c hx))

theorem takeWhile_append_stop {p : Char → Bool} {l1 l2 : List Char} {x : Char}
    (hx : x ∈ l1) (hpx : p x = false) :
    (l1 ++ l2).takeWhile p = l1.takeWhile p := by
  induction l1 with
  | nil => simp at hx
  | cons c rest ih =>
    rw [List.cons_append, List.takeWhile_cons, List.takeWhile_cons]
    cases hc : p c with
    | false => rfl
    | true =>
      rcases List.mem_cons.mp hx with h1 | h2
      · subst h1
        rw [hc] at hpx
        cases hpx
      · simp only [if_pos rfl]
        exact congrArg (c :: ·) (ih h2)

theorem afterLastEq_no_eq {l : List Char} (h : '=' ∉ l) : afterLastEq l = l := by
  unfold afterLastEq
  rw [takeWhile_all, List.reverse_reverse]
  intro x hx
  have : x ≠ '=' := by
    intro he
    exact h (he ▸ List.mem_reverse.mp hx)
  simp [this]

theorem splitEq_no_eq {l : List Char} (h : '=' ∉ l) : splitEq l = [l] := by
  induction l with
  | nil => rfl
  | cons c rest ih =>
    have hc : ¬c = '=' := fun hc => h (hc ▸ List.mem_cons_self c rest)
    rw [splitEq, if_neg hc, ih fun hm => h (List.mem_cons_of_mem c hm)]

theorem splitEq_singleton {l p : List Char} (h : splitEq l = [p]) :
    p = l ∧ '=' ∉ l := by
  induction l generalizing p with
  | nil =>
    refine ⟨?_, by simp⟩
    have : [[]] = [p] := h
    simpa using this.symm
  | cons c rest ih =>
    rw [splitEq] at h
    split at h
    · have := (List.cons.injEq _ _ _ _).mp h
      exact absurd this.2 (splitEq_ne_nil rest)
    · rename_i hc
      cases hr : splitEq rest with
      | nil => exact absurd hr (splitEq_ne_nil rest)
      | cons q qs =>
        rw [hr] at h
        have h2 := (List.cons.injEq _ _ _ _).mp h
        obtain ⟨h21, h22⟩ := h2
        subst h22
        obtain ⟨hq, hne⟩ := ih hr
        subst hq
        refine ⟨h21.symm, ?_⟩
        intro hm
        rcases List.mem_cons.mp hm with h1 | h2
        · exact hc h1.symm
        · exact hne h2

theorem afterLastEq_cons_of_mem {rest : List Char} (c : Char)
    (h : '=' ∈ rest) : afterLastEq (c :: rest) = afterLastEq rest := by
  unfold afterLastEq
  rw [List.reverse_cons,
    takeWhile_append_stop (List.mem_reverse.mpr h) (by simp)]

theorem afterLastEq_eq_head_not_mem {rest : List Char} (h : '=' ∉ rest) :
    afterLastEq ('=' :: rest) = rest := by
  unfold afterLastEq
  rw [List.reverse_cons, takeWhile_append_all, List.takeWhile_cons]
  · simp
  · intro x hx
    have : x ≠ '=' := by
      intro he
      exact h (he ▸ List.mem_reverse.mp hx)
    simp [this]

/-- Fact: `split("=")[-1]` is the suffix after the final `'='`. -/
theorem splitEq_getLastD (l : List Char) :
    (splitEq l).getLastD [] = afterLastEq l := by
  induction l with
  | nil => rfl
  | cons c rest ih =>
    rw [splitEq]
    by_cases hc : c = '='
    · subst hc
      rw [if_pos rfl, List.getLastD_cons]
      by_cases hm : '=' ∈ rest
      · rw [afterLastEq_cons_of_mem '=' hm]
        exact ih
      · rw [afterLastEq_eq_head_not_mem hm, splitEq_no_eq hm]
        rfl
    · rw [if_neg hc]
      cases hr : splitEq rest with
      | nil => exact absurd hr (splitEq_ne_nil rest)
      | cons q qs =>
        cases qs with
        | nil =>
          obtain ⟨hq, hne⟩ := splitEq_singleton hr
          have hnm : '=' ∉ c :: rest := by
            intro hm
            rcases List.mem_cons.mp hm with h1 | h2
            · exact hc h1.symm
            · exact hne h2
          rw [afterLastEq_no_eq hnm, hq]
          rfl
        | cons q' qs' =>
          have hm : '=' ∈ rest := by
            by_contra hnm
            rw [splitEq_no_eq hnm] at hr
            simp at hr
          rw [afterLastEq_cons_of_mem c hm, ← ih, hr,
            List.getLastD_cons, List.getLastD_cons, List.getLastD_cons,
            List.getLastD_cons]

theorem pySplitEqLast_eq_afterLastEq (s : String) :
    pySplitEqLast s = ⟨afterLastEq s.data⟩ :=
  congrArg String.mk (splitEq_getLastD s.data)

/-- C5: on a successful streamed response whose `Content-Disposition` header
value is `S`, the output filename is the suffix of `S` after its final `'='`
with all double-quote characters removed, and the path returned by
`_download` (where the file is opened and written) is
`os.path.join(output_dir, filename)`. -/
theorem path_from_content_disposition
    (url output_dir cl cd : String) (n timeout chunk_size : Nat)
    (chunks : List String) (hcl : pyInt? cl = some n) :
    ∃ res, (download_file url output_dir timeout chunk_size
        (.resp ⟨some cl, some cd, chunks⟩)).2 = .ok res ∧
      res.path = osPathJoin output_dir (stripQuotes ⟨afterLastEq cd.data⟩) := by
  refine ⟨⟨osPathJoin output_dir (stripQuotes (pySplitEqLast cd)),
          chunks.filter (fun c => !(c = "")),
          (chunks.filter (fun c => !(c = ""))).length * chunk_size⟩, ?_, ?_⟩
  · simp [download_file, hcl]
  · rw [pySplitEqLast_eq_afterLastEq]

/-- C5 witness: the spec's example header yields `<outputDir>/LC08_scene.tar`. -/
theorem path_from_content_disposition_witness :
    pyInt? "999" = some 999 ∧
    (∃ res, (download_file "https://u" "/data" 300 1024
        (.resp ⟨some "999",
                some "attachment; filename=\"LC08_scene.tar\"", ["x"]⟩)).2
        = .ok res ∧
      res.path = osPathJoin "/data"
        (stripQuotes ⟨afterLastEq ("attachment; filename=\"LC08_scene.tar\"").data⟩)) ∧
    osPathJoin "/data"
        (stripQuotes ⟨afterLastEq ("attachment; filename=\"LC08_scene.tar\"").data⟩)
      = "/data/LC08_scene.tar" :=
  ⟨by decide,
   path_from_content_disposition "https://u" "/data" "999"
     "attachment; filename=\"LC08_scene.tar\"" 999 300 1024 ["x"] (by decide),
   by decide⟩

/-- C10: a `Content-Disposition` value with no `'='` at all does not make the
extraction fail: `split("=")[-1]` is the entire value, so the filename is the
whole header value with double quotes stripped. -/
theorem filename_total_without_equals
    (url output_dir cl cd : String) (n timeout chunk_size : Nat)
    (chunks : List String) (hcl : pyInt? cl = some n) (hne : '=' ∉ cd.data) :
    ∃ res, (download_file url output_dir timeout chunk_size
        (.resp ⟨some cl, some cd, chunks⟩)).2 = .ok res ∧
      res.path = osPathJoin output_dir (stripQuotes cd) := by
  refine ⟨⟨osPathJoin output_dir (stripQuotes (pySplitEqLast cd)),
          chunks.filter (fun c => !(c = "")),
          (chunks.filter (fun c => !(c = ""))).length * chunk_size⟩, ?_, ?_⟩
  · simp [download_file, hcl]
  · have : pySplitEqLast cd = cd := by
      unfold pySplitEqLast
      rw [splitEq_no_eq hne]
      rfl
    rw [this]

/-- C10 witness: header value `inline` (no equals sign): the file is named
`inline`. -/
theorem filename_total_without_equals_witness :
    pyInt? "7" = some 7 ∧ '=' ∉ ("inline").data ∧
    (∃ res, (download_file "https://u" "/data" 300 1024
        (.resp ⟨some "7", some "inline", ["x"]⟩)).2 = .ok res ∧
      res.path = osPathJoin "/data" (stripQuotes "inline")) ∧
    osPathJoin "/data" (stripQuotes "inline") = "/data/inline" :=
  ⟨by decide, by decide,
   filename_total_without_equals "https://u" "/data" "7" "inline" 7 300 1024
     ["x"] (by decide) (by decide),
   by decide⟩

/-! ## Claims about `download` -/

/-- The URL template instantiation splits as base joined with
`/download/<code>/<sceneId>/EE/`. -/
theorem eeDownloadUrl_decomp (code sid : String) :
    eeDownloadUrl code sid =
      "https://earthexplorer.usgs.gov" ++ "/download/" ++ code ++ "/"
        ++ sid ++ "/EE/" := rfl

/-- C3: whenever the dataset is present in `DATA_PRODUCTS`, the single GET in
`download`'s trace targets `<base>/download/<productCode>/<resolvedId>/EE/`;
in particular `landsat_ot_c2_l1` maps to product code `5e81f14f92acf9ef` and
with scene `LC80100172015082LGN00` the URL is the base concatenated with
`/download/5e81f14f92acf9ef/LC80100172015082LGN00/EE/`. -/
theorem download_url_construction
    (is_product_id : String → Bool) (guess_dataset : String → String)
    (get_scene_id : String → String → String)
    (scene_id output_dir : String) (dataset : Option String)
    (timeout : Nat) (net : GetResult) (code : String)
    (h : DATA_PRODUCTS.lookup (resolveDataset guess_dataset scene_id dataset)
      = some code) :
    (download is_product_id guess_dataset get_scene_id scene_id output_dir
        dataset timeout net).1 =
      (if is_product_id scene_id
       then [NetEvent.resolveCall scene_id
               (resolveDataset guess_dataset scene_id dataset)]
       else []) ++
      [NetEvent.httpGet
        ("https://earthexplorer.usgs.gov" ++ "/download/" ++ code ++ "/"
          ++ (if is_product_id scene_id
              then get_scene_id scene_id
                     (resolveDataset guess_dataset scene_id dataset)
              else scene_id) ++ "/EE/")] ∧
    DATA_PRODUCTS.lookup "landsat_ot_c2_l1" = some "5e81f14f92acf9ef" ∧
    eeDownloadUrl "5e81f14f92acf9ef" "LC80100172015082LGN00" =
      "https://earthexplorer.usgs.gov"
        ++ "/download/5e81f14f92acf9ef/LC80100172015082LGN00/EE/" := by
  refine ⟨?_, by decide, rfl⟩
  cases hipi : is_product_id scene_id <;>
    simp [download, h, hipi, download_file] <;> rfl

/-- C3 witness: the spec's concrete dataset and scene. -/
theorem download_url_construction_witness :
    DATA_PRODUCTS.lookup
        (resolveDataset (fun _ => "g") "LC80100172015082LGN00"
          (some "landsat_ot_c2_l1")) = some "5e81f14f92acf9ef" ∧
    ((download (fun _ => false) (fun _ => "g") (fun _ _ => "r")
        "LC80100172015082LGN00" "/out" (some "landsat_ot_c2_l1") 300
        .timeout).1 =
      (if (fun (_ : String) => false) "LC80100172015082LGN00"
       then [NetEvent.resolveCall "LC80100172015082LGN00"
               (resolveDataset (fun _ => "g") "LC80100172015082LGN00"
                 (some "landsat_ot_c2_l1"))]
       else []) ++
      [NetEvent.httpGet
        ("https://earthexplorer.usgs.gov" ++ "/download/"
          ++ "5e81f14f92acf9ef" ++ "/"
          ++ (if (fun (_ : String) => false) "LC80100172015082LGN00"
              then (fun (_ _ : String) => "r") "LC80100172015082LGN00"
                     (resolveDataset (fun _ => "g") "LC80100172015082LGN00"
                       (some "landsat_ot_c2_l1"))
              else "LC80100172015082LGN00") ++ "/EE/")] ∧
      DATA_PRODUCTS.lookup "landsat_ot_c2_l1" = some "5e81f14f92acf9ef" ∧
      eeDownloadUrl "5e81f14f92acf9ef" "LC80100172015082LGN00" =
        "https://earthexplorer.usgs.gov"
          ++ "/download/5e81f14f92acf9ef/LC80100172015082LGN00/EE/") :=
  ⟨by decide,
   download_url_construction (fun _ => false) (fun _ => "g") (fun _ _ => "r")
     "LC80100172015082LGN00" "/out" (some "landsat_ot_c2_l1") 300 .timeout
     "5e81f14f92acf9ef" (by decide)⟩

/-- C4: `download` calls the scene-id resolver exactly once when the
classifier marks the identifier as a product id, and never otherwise; when it
is called, the call is the first event of the trace, before the download URL
is requested (the remainder of the trace holds no resolver call). -/
theorem resolver_called_iff_product_id
    (is_product_id : String → Bool) (guess_dataset : String → String)
    (get_scene_id : String → String → String)
    (scene_id output_dir : String) (dataset : Option String)
    (timeout : Nat) (net : GetResult) :
    (((download is_product_id guess_dataset get_scene_id scene_id output_dir
        dataset timeout net).1.filter isResolveCall).length
      = if is_product_id scene_id then 1 else 0) ∧
    ∃ rest, (download is_product_id guess_dataset get_scene_id scene_id
        output_dir dataset timeout net).1 =
      (if is_product_id scene_id
       then [NetEvent.resolveCall scene_id
               (resolveDataset guess_dataset scene_id dataset)]
       else []) ++ rest ∧
      rest.filter isResolveCall = [] := by
  cases hlk : DATA_PRODUCTS.lookup (resolveDataset guess_dataset scene_id dataset) with
  | none =>
    refine ⟨?_, [], ?_, rfl⟩ <;>
      cases hipi : is_product_id scene_id <;>
        simp [download, hlk, hipi, isResolveCall]
  | some code =>
    cases hipi : is_product_id scene_id
    · refine ⟨?_, [NetEvent.httpGet (eeDownloadUrl code scene_id)], ?_, rfl⟩ <;>
        simp [download, hlk, hipi, download_file, isResolveCall]
    · refine ⟨?_, [NetEvent.httpGet (eeDownloadUrl code
        (get_scene_id scene_id
          (resolveDataset guess_dataset scene_id dataset)))], ?_, rfl⟩ <;>
        simp [download, hlk, hipi, download_file, isResolveCall]

/-- C7: a dataset name with no entry in `DATA_PRODUCTS` makes `download` fail
with `KeyError` at the table subscript, and the trace holds no download GET:
no URL is requested and no wrong URL is silently produced. -/
theorem unknown_dataset_fails_before_request
    (is_product_id : String → Bool) (guess_dataset : String → String)
    (get_scene_id : String → String → String)
    (scene_id output_dir : String) (dataset : Option String)
    (timeout : Nat) (net : GetResult)
    (h : DATA_PRODUCTS.lookup (resolveDataset guess_dataset scene_id dataset)
      = none) :
    (download is_product_id guess_dataset get_scene_id scene_id output_dir
        dataset timeout net).2 =
      .error (.keyError (resolveDataset guess_dataset scene_id dataset)) ∧
    (download is_product_id guess_dataset get_scene_id scene_id output_dir
        dataset timeout net).1.filter isHttpGet = [] := by
  cases hipi : is_product_id scene_id <;>
    refine ⟨?_, ?_⟩ <;> simp [download, h, hipi, isHttpGet]

/-- C7 witness: dataset `modis` is not in the table. -/
theorem unknown_dataset_fails_before_request_witness :
    DATA_PRODUCTS.lookup (resolveDataset (fun _ => "g") "SC1" (some "modis"))
      = none ∧
    (download (fun _ => true) (fun _ => "g") (fun _ _ => "r") "SC1" "/out"
        (some "modis") 300 .timeout).2 =
      .error (.keyError (resolveDataset (fun _ => "g") "SC1" (some "modis"))) ∧
    (download (fun _ => true) (fun _ => "g") (fun _ _ => "r") "SC1" "/out"
        (some "modis") 300 .timeout).1.filter isHttpGet = [] :=
  ⟨by decide,
   unknown_dataset_fails_before_request (fun _ => true) (fun _ => "g")
     (fun _ _ => "r") "SC1" "/out" (some "modis") 300 .timeout (by decide)⟩
